import Mathlib

/-!
Verification of the PiCam repository (src/picam.py and src/qr204.py): a
Raspberry Pi kiosk in which a button press triggers a photo capture, the
photo is converted to a thermal-printer raster image and printed on an
ESC/POS printer, with LED feedback and a timed re-enable of the button.

The two Python files are shallowly embedded here:
 * the side-effecting orchestration (`on_button` in picam.py, `picture` in
   qr204.py, the camera and printer wrappers) is embedded as pure functions
   from an explicit external `World` (does the camera return a frame, does
   the image file decode, does the printer device open) to an event trace,
   the updated lock flag, and an optional uncaught exception;
 * the image pipeline (`ImageProcessor.convert` in picam.py,
   `convert_image` in qr204.py — both files run the identical pipeline) is
   embedded over a raster-image type with explicit dimensions and a pixel
   function; machine pixels are single-channel 8-bit grey values modelled
   as `Nat`, and Python's `int(a / b)` on nonnegative operands is modelled
   as `Nat` floor division;
 * `load_config` in picam.py is embedded over an explicit environment
   `String → Option String`, with Python's base-10 `int(str)` parser
   modelled character by character.
-/

namespace PiCam

/-- A calendar date, standing in for `datetime.datetime.now()`. -/
structure Date where
  day : Nat
  month : Nat
  year : Nat
deriving DecidableEq

/-- Zero-pad a numeral to two digits, as Python strftime `%d` / `%m` do. -/
def pad2 (n : Nat) : String :=
  if n < 10 then "0" ++ toString n else toString n

/-- `datetime.datetime.now().strftime('%d-%m-%Y')`. -/
def formatDMY (d : Date) : String :=
  pad2 d.day ++ "-" ++ pad2 d.month ++ "-" ++ toString d.year

/-- Outcome of the three external devices during one trigger cycle:
does the camera deliver a frame (`cap.read()`), does the captured file
decode (`Image.open`), does the printer device open (`File(printer_dev)`). -/
structure World where
  captureOk : Bool
  decodeOk : Bool
  printOk : Bool
deriving DecidableEq

/-- Observable actions of one trigger cycle, in program order. -/
inductive Event where
  | ledSequence
  | gpioOut (pin : Nat) (high : Bool)
  | camOpen
  | camRead
  | camRelease
  | fileWrite (path : String)
  | log (msg : String)
  | timerScheduled (secs : Nat)
  | prOpen
  | prRaw (bs : List Nat)
  | prSleepMs (ms : Nat)
  | prImage
  | prText (s : String)
  | prFeed (n : Nat)
  | prCut
  | prClose
deriving DecidableEq

/-- `Camera.capture` (picam.py): open the device, read one frame, release,
then raise `RuntimeError` when no frame was read, else write the file.
The release happens before the raise, so it occurs on both paths; the
file write happens only after the success check. -/
def cameraCapture (path : String) (w : World) : List Event × Except String Unit :=
  if w.captureOk then
    ([Event.camOpen, Event.camRead, Event.camRelease, Event.fileWrite path], Except.ok ())
  else
    ([Event.camOpen, Event.camRead, Event.camRelease],
      Except.error "Failed to capture image from camera")

/-- `say_cheeze` (qr204.py): open, read, write-and-log on success or log
a failure message, then release.  It never raises: a missed frame is only
logged. -/
def say_cheeze (imageName : String) (w : World) : List Event :=
  if w.captureOk then
    [Event.camOpen, Event.camRead, Event.fileWrite imageName,
      Event.log ("Image saved as " ++ imageName), Event.camRelease]
  else
    [Event.camOpen, Event.camRead, Event.log "Failed to capture image", Event.camRelease]

/-- `say_cheeze` (qr204.py) as a call result.  The source has no raise
statement on either branch: a read frame is written and logged, a missed
frame is only logged, and both branches fall through to `cap.release()`,
so the call always returns normally with its event trace. -/
def say_cheeze_run (imageName : String) (w : World) : List Event × Except String Unit :=
  (say_cheeze imageName w, Except.ok ())

/-- `Printer.print_image` (picam.py): open the device, raw darkness
command `GS B darkness`, 100 ms settling sleep, raw graphics-mode command
`GS ( 1`, raster bit-image transmission, newline, footer line of eleven
spaces and the `%d-%m-%Y` date, feed one line, cut, close. -/
def printImageTrace (darkness : Nat) (date : Date) : List Event :=
  [ Event.prOpen
  , Event.prRaw [0x1D, 0x42, darkness]
  , Event.prSleepMs 100
  , Event.prRaw [0x1D, 0x28, 0x01]
  , Event.prImage
  , Event.prText "\n"
  , Event.prText ("           " ++ formatDMY date ++ "\n")
  , Event.prFeed 1
  , Event.prCut
  , Event.prClose ]

/-- `print_image_with_darkness` (qr204.py): identical to
`Printer.print_image` except the footer text carries no trailing newline. -/
def print_image_with_darkness_trace (darkness : Nat) (date : Date) : List Event :=
  [ Event.prOpen
  , Event.prRaw [0x1D, 0x42, darkness]
  , Event.prSleepMs 100
  , Event.prRaw [0x1D, 0x28, 0x01]
  , Event.prImage
  , Event.prText "\n"
  , Event.prText ("           " ++ formatDMY date)
  , Event.prFeed 1
  , Event.prCut
  , Event.prClose ]

/-- Opening and driving the printer, as seen from the caller: when the
device opens, the whole `print_image` trace runs; when it does not,
`EscposPrinter(self.device)` raises before any printer event. -/
def printStep (w : World) (darkness : Nat) (date : Date) : List Event × Except String Unit :=
  if w.printOk then (printImageTrace darkness date, Except.ok ())
  else ([], Except.error "could not open printer device")

/-- `ImageProcessor.convert` as seen from the trigger handler: it raises
iff the captured file does not decode (`Image.open`). -/
def convertStep (w : World) : Except String Unit :=
  if w.decodeOk then Except.ok () else Except.error "cannot identify image file"

/-- Static context of a trigger cycle: the LED pin, the configured
darkness byte, the current date, and the generated capture file name. -/
structure Ctx where
  ledPin : Nat
  darkness : Nat
  date : Date
  imageName : String

/-- Body of the `try` block of `on_button` (picam.py): capture, convert,
drive the LED pin low, print; the result carries the events emitted and
the message of the first exception, if any. -/
def tryPipeline (c : Ctx) (w : World) : List Event × Option String :=
  match cameraCapture c.imageName w with
  | (ces, Except.error m) => (ces, some m)
  | (ces, Except.ok ()) =>
    match convertStep w with
    | Except.error m => (ces, some m)
    | Except.ok () =>
      match printStep w c.darkness c.date with
      | (pes, Except.error m) => (ces ++ [Event.gpioOut c.ledPin false] ++ pes, some m)
      | (pes, Except.ok ()) => (ces ++ [Event.gpioOut c.ledPin false] ++ pes, none)

/-- `on_button` (picam.py).  Returns the lock flag after the handler, the
event trace, and the exception escaping the handler (always `none`: the
`except` clause catches and logs every exception, and the `finally`
clause starts the 3-second unlock timer afterwards in every case). -/
def on_button (c : Ctx) (locked : Bool) (w : World) : Bool × List Event × Option String :=
  if locked then (locked, [], none)
  else
    let r := tryPipeline c w
    let logEvs := match r.2 with
      | some m => [Event.log ("Error: " ++ m)]
      | none => []
    (true, [Event.ledSequence] ++ r.1 ++ logEvs ++ [Event.timerScheduled 3], none)

/-- `picture` (qr204.py).  No `try` surrounds the pipeline: `say_cheeze`
swallows a capture failure itself, but `convert_image` then raises on the
missing or undecodable file, and `print_image_with_darkness` raises when
the device does not open; either exception escapes the handler and the
`threading.Timer(3, unlock_button)` line at the end is never reached. -/
def picture (c : Ctx) (locked : Bool) (w : World) : Bool × List Event × Option String :=
  if locked then (locked, [], none)
  else
    let es0 := [Event.ledSequence] ++ say_cheeze c.imageName w
    if w.captureOk && w.decodeOk then
      if w.printOk then
        (true, es0 ++ [Event.gpioOut c.ledPin false]
          ++ print_image_with_darkness_trace c.darkness c.date
          ++ [Event.timerScheduled 3], none)
      else
        (true, es0 ++ [Event.gpioOut c.ledPin false], some "could not open printer device")
    else
      (true, es0, some "cannot identify image file")

/-- `unlock_button` (both files): clear the lock flag, drive the LED pin
high, log. -/
def unlock_button (ledPin : Nat) : Bool × List Event :=
  (false, [Event.gpioOut ledPin true, Event.log "Button unlocked."])

/-- `true` exactly on the unlock-timer event. -/
def isTimerEv : Event → Bool
  | Event.timerScheduled _ => true
  | _ => false

/-- `true` exactly on the capture-session release event. -/
def isReleaseEv : Event → Bool
  | Event.camRelease => true
  | _ => false

/-- `true` exactly on the capture-session open event. -/
def isCamOpenEv : Event → Bool
  | Event.camOpen => true
  | _ => false

/-- Number of events of a trace satisfying `p`. -/
def countEv (p : Event → Bool) (es : List Event) : Nat :=
  (es.filter p).length

/-- `true` iff the call ended in a raised exception. -/
def raised : Except String Unit → Bool
  | Except.ok _ => false
  | Except.error _ => true

/-- A fixed concrete date used by concrete evaluations. -/
def dateD : Date := ⟨7, 3, 2025⟩

/-- A fixed concrete trigger context: LED pin 12, darkness 0x2A. -/
def ctxD : Ctx := ⟨12, 0x2A, dateD, "2025_03_07_x.png"⟩

/-- The world in which all three devices behave. -/
def allOk : World := ⟨true, true, true⟩

/-- The world in which the camera returns no frame. -/
def noFrame : World := ⟨false, true, true⟩

/-- The world in which the printer device does not open. -/
def noPrinter : World := ⟨true, true, false⟩

/-! ## The image pipeline (src/picam.py `ImageProcessor.convert`,
identical to src/qr204.py `convert_image`).

A raster image is its dimensions and a pixel function; pixel values are
single-channel 8-bit grey levels held as `Nat` (the camera frame is
modelled directly in grey, so the `convert('L')` step is the identity on
the model, and the contrast enhancement with the hard-coded factor 1.0 is
the identity interpolation). -/

/-- A raster image: dimensions and a pixel lookup `pix x y` with
`x < width`, `y < height`, origin at the top-left corner. -/
structure Img where
  width : Nat
  height : Nat
  pix : Nat → Nat → Nat

/-- `img.rotate(-90, expand=True)` (both files).  A negative angle in the
library rotates clockwise; with `expand` the canvas grows to the swapped
dimensions and nothing is cropped.  The pixel that was at `(x, y)` lands
at `(height - 1 - y, x)`. -/
def rotateNeg90Expand (img : Img) : Img :=
  { width := img.height
    height := img.width
    pix := fun x y => img.pix y (img.height - 1 - x) }

/-- Modelled from the spec: the reference 90° counter-clockwise rotation
with the canvas expanded to fit, named by the spec as the intended second
processing step; the pixel that was at `(x, y)` lands at `(y, width - 1 - x)`. -/
def rotateCCW90 (img : Img) : Img :=
  { width := img.height
    height := img.width
    pix := fun x y => img.pix (img.width - 1 - y) x }

/-- `img.resize((w, h))`: the resampling filter is a library detail; the
model uses nearest-neighbour source lookup, which preserves exactly the
dimension behaviour the code relies on. -/
def resizeNearest (img : Img) (w h : Nat) : Img :=
  { width := w
    height := h
    pix := fun x y => img.pix (x * img.width / w) (y * img.height / h) }

/-- `img.convert('L')`: pixels are already modelled as single-channel
grey values, so the conversion is the identity on the model. -/
def toGrey (img : Img) : Img := img

/-- `ImageEnhance.Contrast(img).enhance(1.0)`: degree-1 interpolation
between the image and its mean returns the image unchanged. -/
def contrastEnhance1 (img : Img) : Img := img

/-- All pixel values of an image, row-major. -/
def pixelList (img : Img) : List Nat :=
  ((List.range img.height).map
    (fun y => (List.range img.width).map (fun x => img.pix x y))).flatten

/-- The `i`-th of `n` contiguous rank ranges of `s`. -/
def bucket (s : List Nat) (n i : Nat) : List Nat :=
  (s.drop (i * s.length / n)).take ((i + 1) * s.length / n - i * s.length / n)

/-- Representative grey value of the `i`-th of `n` buckets of `s`. -/
def bucketMean (s : List Nat) (n i : Nat) : Nat :=
  (bucket s n i).foldl (· + ·) 0 / max 1 (bucket s n i).length

/-- Modelled from the spec: the library's `Image.ADAPTIVE` palette
selection behind `img.convert('P', palette=Image.ADAPTIVE, colors=n)` is
external code; the spec describes it as a perceptually-adaptive selection
of at most `n` entries (median-cut or library-equivalent), modelled here
as: keep the distinct grey values when there are at most `n` of them,
otherwise merge them into `n` rank buckets represented by their means. -/
def adaptivePalette (vals : List Nat) (n : Nat) : List Nat :=
  if (vals.dedup).length ≤ n then vals.dedup
  else ((List.range n).map (bucketMean vals.dedup n)).dedup

/-- Absolute difference of two grey values. -/
def greyDist (a b : Nat) : Nat := max a b - min a b

/-- Index of the palette entry nearest to grey value `v`. -/
def nearestIdx (palette : List Nat) (v : Nat) : Nat :=
  match palette.map (greyDist v) with
  | [] => 0
  | d :: ds => (d :: ds).indexOf ((d :: ds).foldl min d)

/-- A palette-mode ('P') raster image: dimensions, the palette, and for
every pixel the index of its palette entry. -/
structure PImg where
  width : Nat
  height : Nat
  palette : List Nat
  idx : Nat → Nat → Nat

/-- `img.convert('P', palette=Image.ADAPTIVE, colors=n)`: build the
adaptive palette and map every pixel to its nearest entry. -/
def convertP (img : Img) (n : Nat) : PImg :=
  { width := img.width
    height := img.height
    palette := adaptivePalette (pixelList img) n
    idx := fun x y => nearestIdx (adaptivePalette (pixelList img) n) (img.pix x y) }

/-- `ImageProcessor.convert` (picam.py), step for step: rotate with
`rotate(-90, expand=True)`, compute `int(self.width * img.height / img.width)`
on the rotated image (Python `int()` truncates the nonnegative quotient,
i.e. `Nat` floor division), resize, convert to grey, apply the neutral
contrast enhancement, quantize to the adaptive palette. -/
def ImageProcessor.convert (width numColors : Nat) (img : Img) : PImg :=
  let r := rotateNeg90Expand img
  let h := width * r.height / r.width
  convertP (contrastEnhance1 (toGrey (resizeNearest r width h))) numColors

/-- A concrete 1920×1080 camera frame (constant grey), the frame of the
spec's default-configuration scenario. -/
def img1920 : Img := ⟨1920, 1080, fun _ _ => 128⟩

/-- A concrete 2×1 image whose two pixels differ, telling the two
rotation directions apart. -/
def imgAB : Img := ⟨2, 1, fun x _ => if x = 0 then 10 else 20⟩

/-! ## Configuration loading (src/picam.py `load_config`). -/

/-- The configuration record built by `load_config`. -/
structure Config where
  BUTTON_PIN : Int
  LED_PIN : Int
  PRINTER_DEVICE : String
  IMAGE_WIDTH : Int
  NUM_COLORS : Int
  DARKNESS_LEVEL : Int
deriving DecidableEq

/-- Tail of a Python base-10 integer literal after its first digit:
digits, with single underscores allowed between digits. -/
def pyDigitsTail : List Char → Bool
  | [] => true
  | ['_'] => false
  | '_' :: c :: cs => c.isDigit && pyDigitsTail cs
  | c :: cs => c.isDigit && pyDigitsTail cs

/-- Numeric value of such a tail, given the value of the digits read so
far; `none` on the first character that breaks the literal. -/
def pyDigitsVal (acc : Nat) : List Char → Option Nat
  | [] => some acc
  | ['_'] => none
  | '_' :: c :: cs =>
    if c.isDigit then pyDigitsVal (10 * acc + (c.toNat - 48)) cs else none
  | c :: cs =>
    if c.isDigit then pyDigitsVal (10 * acc + (c.toNat - 48)) cs else none

/-- A nonempty all-digit run (underscores between digits allowed),
starting with a digit. -/
def pyUnsignedVal : List Char → Option Nat
  | [] => none
  | c :: cs => if c.isDigit then pyDigitsVal (c.toNat - 48) cs else none

/-- Strip leading and trailing whitespace, as Python `int(str)` does. -/
def stripWS (cs : List Char) : List Char :=
  ((cs.dropWhile Char.isWhitespace).reverse.dropWhile Char.isWhitespace).reverse

/-- Python `int(s)` with the default base 10: optional surrounding
whitespace, optional sign, then decimal digits only — `"0x2A"` and every
other non-decimal spelling yield `none` (a `ValueError`). -/
def pyInt? (s : String) : Option Int :=
  match stripWS s.toList with
  | '+' :: cs => (pyUnsignedVal cs).map Int.ofNat
  | '-' :: cs => (pyUnsignedVal cs).map (fun v => -(Int.ofNat v))
  | cs => (pyUnsignedVal cs).map Int.ofNat

/-- `int(os.getenv(key, default))`: the default is substituted only when
the key is absent; a present value that `int()` rejects raises
`ValueError`. -/
def getIntEnv (env : String → Option String) (key : String) (dflt : Int) :
    Except String Int :=
  match env key with
  | none => Except.ok dflt
  | some s =>
    match pyInt? s with
    | some v => Except.ok v
    | none => Except.error ("invalid literal for int() with base 10: " ++ s)

/-- `load_config` (picam.py): build the configuration dict in source
order; the first `int()` failure aborts the whole call with that error. -/
def load_config (env : String → Option String) : Except String Config :=
  match getIntEnv env "BUTTON_PIN" 17 with
  | Except.error m => Except.error m
  | Except.ok b =>
    match getIntEnv env "LED_PIN" 12 with
    | Except.error m => Except.error m
    | Except.ok l =>
      match getIntEnv env "IMAGE_WIDTH" 384 with
      | Except.error m => Except.error m
      | Except.ok iw =>
        match getIntEnv env "NUM_COLORS" 254 with
        | Except.error m => Except.error m
        | Except.ok nc =>
          match getIntEnv env "DARKNESS_LEVEL" 42 with
          | Except.error m => Except.error m
          | Except.ok dk =>
            Except.ok
              { BUTTON_PIN := b
                LED_PIN := l
                PRINTER_DEVICE := (env "PRINTER_DEVICE").getD "/dev/usb/lp0"
                IMAGE_WIDTH := iw
                NUM_COLORS := nc
                DARKNESS_LEVEL := dk }

/-! ## Theorems about the claims. -/

/-- Claim C6 counterexample: `say_cheeze` (qr204.py), cited by the claim
alongside `Camera.capture`, does not raise when no frame could be read:
the call returns normally, merely logging the failure, with the session
still released. -/
theorem c6_cex :
    noFrame.captureOk = false ∧
    raised (say_cheeze_run "2025_03_07_x.png" noFrame).2 = false ∧
    say_cheeze_run "2025_03_07_x.png" noFrame =
      ([Event.camOpen, Event.camRead, Event.log "Failed to capture image",
        Event.camRelease], Except.ok ()) :=
  ⟨rfl, rfl, rfl⟩

/-- Claim C6 (corrected): `Camera.capture` (picam.py) raises its capture
error exactly when no frame could be read, with the capture session
opened once and released once on the success path and on the failure
path alike; `say_cheeze` (qr204.py) likewise opens and releases the
session exactly once on both paths, but it never raises — a missed frame
is only logged as `Failed to capture image` and the call returns
normally. -/
theorem c6_capture_error_and_release (name : String) (w : World) :
    ((cameraCapture name w).2 = Except.error "Failed to capture image from camera"
      ↔ w.captureOk = false) ∧
    raised (cameraCapture name w).2 = !w.captureOk ∧
    countEv isReleaseEv (cameraCapture name w).1 = 1 ∧
    countEv isCamOpenEv (cameraCapture name w).1 = 1 ∧
    raised (say_cheeze_run name w).2 = false ∧
    countEv isReleaseEv (say_cheeze_run name w).1 = 1 ∧
    countEv isCamOpenEv (say_cheeze_run name w).1 = 1 ∧
    (w.captureOk = false →
      Event.log "Failed to capture image" ∈ (say_cheeze_run name w).1) := by
  rcases w with ⟨co, de, pr⟩
  cases co <;>
    exact ⟨by simp [cameraCapture], rfl, rfl, rfl, rfl, rfl, rfl,
      by simp [say_cheeze_run, say_cheeze]⟩

/-- Witness for `c6_capture_error_and_release` in the no-frame world. -/
theorem c6_witness :
    noFrame.captureOk = false ∧
    Event.log "Failed to capture image" ∈ (say_cheeze_run "2025_03_07_x.png" noFrame).1 :=
  ⟨rfl,
    (c6_capture_error_and_release "2025_03_07_x.png" noFrame).2.2.2.2.2.2.2 rfl⟩

/-- Claim C9 (confirmed): the file-write side effect of a capture occurs
exactly on the success path — when no frame is read, neither
`Camera.capture` (picam.py) nor `say_cheeze` (qr204.py) creates a file at
the output path. -/
theorem c9_file_only_on_success (name : String) (w : World) :
    (Event.fileWrite name ∈ (cameraCapture name w).1 ↔ w.captureOk = true) ∧
    (Event.fileWrite name ∈ say_cheeze name w ↔ w.captureOk = true) := by
  rcases w with ⟨co, de, pr⟩
  cases co <;> simp [cameraCapture, say_cheeze]

/-- Claim C4 counterexample: with the default configuration the
1920×1080 frame converts to a 384×682 image — because the image is
rotated (dimensions swapped) before the resize — and not to the 384×216
that `round(width * H / W)` over the un-rotated dimensions predicts. -/
theorem c4_cex :
    (ImageProcessor.convert 384 254 img1920).width = 384 ∧
    (ImageProcessor.convert 384 254 img1920).height = 682 ∧
    (682 : Nat) ≠ 216 :=
  ⟨rfl, rfl, by decide⟩

/-- Claim C4 (corrected): for a decodable input of original width `W > 0`
and height `H > 0`, `convert` returns an image of the configured target
width whose height is `⌊width * W / H⌋`: the rotation step swaps the
dimensions before the resize, and Python `int()` truncates the quotient
rather than rounding it. -/
theorem c4_convert_dims (wd n : Nat) (img : Img)
    (_hw : 0 < img.width) (_hh : 0 < img.height) :
    (ImageProcessor.convert wd n img).width = wd ∧
    (ImageProcessor.convert wd n img).height = wd * img.width / img.height :=
  ⟨rfl, rfl⟩

/-- Witness for `c4_convert_dims` at the 1920×1080 frame. -/
theorem c4_witness :
    0 < img1920.width ∧ 0 < img1920.height ∧
    (ImageProcessor.convert 384 254 img1920).height =
      384 * img1920.width / img1920.height :=
  ⟨by decide, by decide, (c4_convert_dims 384 254 img1920 (by decide) (by decide)).2⟩

/-- Claim C5 counterexample: on a 2×1 image with distinct pixels the
rotation performed by the code (`rotate(-90, expand=True)`, i.e. 90°
clockwise) places the opposite pixel at the top from what the reference
90° counter-clockwise rotation places there. -/
theorem c5_cex :
    (rotateNeg90Expand imgAB).width = 1 ∧
    (rotateNeg90Expand imgAB).height = 2 ∧
    (rotateNeg90Expand imgAB).pix 0 0 = 10 ∧
    (rotateCCW90 imgAB).pix 0 0 = 20 ∧
    (10 : Nat) ≠ 20 :=
  ⟨rfl, rfl, rfl, rfl, by decide⟩

/-- Claim C5 (corrected): the second processing step of `convert` rotates
the decoded image 90° clockwise (PIL `rotate(-90, expand=True)`), with
the canvas expanded to fit, so a `W×H` input becomes `H×W` before
resizing; its pixel placement equals the reference counter-clockwise
rotation applied three times, i.e. a reference 90° clockwise rotation. -/
theorem c5_rotation_is_clockwise (img : Img) (x y : Nat)
    (_hx : x < img.height) (hy : y < img.width) :
    (rotateNeg90Expand img).width = img.height ∧
    (rotateNeg90Expand img).height = img.width ∧
    (rotateNeg90Expand img).pix x y =
      (rotateCCW90 (rotateCCW90 (rotateCCW90 img))).pix x y := by
  refine ⟨rfl, rfl, ?_⟩
  have h : img.width - 1 - (img.width - 1 - y) = y := by omega
  show img.pix y (img.height - 1 - x) =
    img.pix (img.width - 1 - (img.width - 1 - y)) (img.height - 1 - x)
  rw [h]

/-- Witness for `c5_rotation_is_clockwise` at the 2×1 image. -/
theorem c5_witness :
    0 < imgAB.height ∧ 1 < imgAB.width ∧
    (rotateNeg90Expand imgAB).pix 0 1 =
      (rotateCCW90 (rotateCCW90 (rotateCCW90 imgAB))).pix 0 1 :=
  ⟨by decide, by decide,
    (c5_rotation_is_clockwise imgAB 0 1 (by decide) (by decide)).2.2⟩

/-- Claim C1 counterexample: in `picture` (qr204.py), when the camera
reads no frame the subsequent `convert_image` exception escapes the
handler uncaught and the 3-second unlock timer is never scheduled. -/
theorem c1_cex :
    (picture ctxD false noFrame).2.2 = some "cannot identify image file" ∧
    Event.timerScheduled 3 ∉ (picture ctxD false noFrame).2.1 :=
  ⟨rfl, by decide⟩

/-- Claim C1 (corrected): in `on_button` (picam.py) every pipeline
exception is caught, logged as `Error: …`, and swallowed, and the
3-second unlock timer is still scheduled; in `picture` (qr204.py) a
pipeline exception instead escapes the handler and no unlock timer is
scheduled on that path. -/
theorem c1_exception_boundary (c : Ctx) (w : World) :
    (on_button c false w).2.2 = none ∧
    Event.timerScheduled 3 ∈ (on_button c false w).2.1 ∧
    (∀ m, (tryPipeline c w).2 = some m →
      Event.log ("Error: " ++ m) ∈ (on_button c false w).2.1) ∧
    (∀ m, (picture c false w).2.2 = some m →
      Event.timerScheduled 3 ∉ (picture c false w).2.1) := by
  rcases w with ⟨co, de, pr⟩
  cases co <;> cases de <;> cases pr <;>
    simp [on_button, picture, tryPipeline, cameraCapture, convertStep, printStep,
      printImageTrace, print_image_with_darkness_trace, say_cheeze]

/-- Witness for `c1_exception_boundary` in the no-frame world. -/
theorem c1_witness :
    (tryPipeline ctxD noFrame).2 = some "Failed to capture image from camera" ∧
    Event.log ("Error: " ++ "Failed to capture image from camera")
      ∈ (on_button ctxD false noFrame).2.1 ∧
    (picture ctxD false noFrame).2.2 = some "cannot identify image file" ∧
    Event.timerScheduled 3 ∉ (picture ctxD false noFrame).2.1 :=
  ⟨rfl,
    (c1_exception_boundary ctxD noFrame).2.2.1
      "Failed to capture image from camera" rfl,
    rfl,
    (c1_exception_boundary ctxD noFrame).2.2.2
      "cannot identify image file" rfl⟩

/-- Claim C2 counterexample: in the all-devices-working cycle the unlock
timer is the final event of the trace — every capture, conversion and
printing event precedes it — so the timer is not armed before the long
blocking calls run. -/
theorem c2_cex :
    (on_button ctxD false allOk).2.1 =
      [Event.ledSequence, Event.camOpen, Event.camRead, Event.camRelease,
        Event.fileWrite "2025_03_07_x.png", Event.gpioOut 12 false,
        Event.prOpen, Event.prRaw [29, 66, 42], Event.prSleepMs 100,
        Event.prRaw [29, 40, 1], Event.prImage, Event.prText "\n",
        Event.prText "           07-03-2025\n", Event.prFeed 1, Event.prCut,
        Event.prClose, Event.timerScheduled 3] ∧
    Event.timerScheduled 3 ∉ ((on_button ctxD false allOk).2.1).dropLast ∧
    Event.camOpen ∈ ((on_button ctxD false allOk).2.1).dropLast :=
  ⟨rfl, by decide, by decide⟩

/-- Claim C2 (corrected): the 3-second unlock timer is armed after the
capture/convert/print calls have returned or failed — it is the final
action of every accepted cycle (`finally` in picam.py, last statement in
qr204.py) — so it cannot fire while the pipeline of that same cycle is
still executing. -/
theorem c2_timer_armed_after (c : Ctx) (w : World) :
    ((on_button c false w).2.1).getLast? = some (Event.timerScheduled 3) ∧
    countEv isTimerEv ((on_button c false w).2.1).dropLast = 0 ∧
    ((picture c false w).2.2 = none →
      ((picture c false w).2.1).getLast? = some (Event.timerScheduled 3)) := by
  rcases w with ⟨co, de, pr⟩
  cases co <;> cases de <;> cases pr <;>
    refine ⟨rfl, rfl, fun h => ?_⟩ <;>
    first
      | rfl
      | (exfalso; simp [picture, say_cheeze] at h)

/-- Witness for `c2_timer_armed_after` in the all-devices-working world. -/
theorem c2_witness :
    (picture ctxD false allOk).2.2 = none ∧
    ((picture ctxD false allOk).2.1).getLast? = some (Event.timerScheduled 3) :=
  ⟨rfl, (c2_timer_armed_after ctxD allOk).2.2 rfl⟩

/-- Claim C3 counterexample: `picture` (qr204.py) accepts a trigger while
unlocked, but when the pipeline raises it schedules zero unlock timers,
not exactly one per accepted cycle. -/
theorem c3_cex :
    (picture ctxD false noFrame).1 = true ∧
    countEv isTimerEv (picture ctxD false noFrame).2.1 = 0 ∧
    countEv isTimerEv (picture ctxD false noFrame).2.1 ≠ 1 :=
  ⟨rfl, rfl, by decide⟩

/-- Claim C3 (corrected): while the lock flag is `true`, a new trigger
invocation of either handler is a no-op — no events at all, so no capture
file, no LED sequence, no printing — and the flag is left unchanged; an
accepted cycle of `on_button` (picam.py) schedules exactly one unlock
timer in every world, while an accepted cycle of `picture` (qr204.py)
does so only when its pipeline does not raise. -/
theorem c3_lock_noop_one_timer (c : Ctx) (w : World) :
    on_button c true w = (true, [], none) ∧
    picture c true w = (true, [], none) ∧
    countEv isTimerEv (on_button c false w).2.1 = 1 ∧
    ((picture c false w).2.2 = none →
      countEv isTimerEv (picture c false w).2.1 = 1) := by
  refine ⟨rfl, rfl, ?_, ?_⟩ <;>
  · rcases w with ⟨co, de, pr⟩
    cases co <;> cases de <;> cases pr <;>
      first
        | rfl
        | (intro h; rfl)
        | (intro h; exfalso; simp [picture, say_cheeze] at h)

/-- Witness for `c3_lock_noop_one_timer` in the all-devices-working
world. -/
theorem c3_witness :
    (picture ctxD false allOk).2.2 = none ∧
    countEv isTimerEv (picture ctxD false allOk).2.1 = 1 :=
  ⟨rfl, (c3_lock_noop_one_timer ctxD allOk).2.2.2 rfl⟩

/-- Claim C7 (confirmed): `print_image` performs, in this fixed order:
open the configured device, send the raw darkness command `GS B` with the
configured darkness byte, wait 100 ms, send the raw graphics-mode-select
command `GS ( 1`, transmit the image in raster bit-image mode, emit a
newline, emit a footer text line of eleven leading spaces followed by the
current local date as `DD-MM-YYYY`, feed one line, cut the paper, close
the connection; `print_image_with_darkness` (qr204.py) is identical
except its footer text carries no trailing newline. -/
theorem c7_print_sequence (d : Nat) (_hd : d < 256) (date : Date) :
    printImageTrace d date =
      [Event.prOpen, Event.prRaw [29, 66, d], Event.prSleepMs 100,
        Event.prRaw [29, 40, 1], Event.prImage, Event.prText "\n",
        Event.prText (String.mk (List.replicate 11 ' ') ++ formatDMY date ++ "\n"),
        Event.prFeed 1, Event.prCut, Event.prClose] ∧
    print_image_with_darkness_trace d date =
      [Event.prOpen, Event.prRaw [29, 66, d], Event.prSleepMs 100,
        Event.prRaw [29, 40, 1], Event.prImage, Event.prText "\n",
        Event.prText (String.mk (List.replicate 11 ' ') ++ formatDMY date),
        Event.prFeed 1, Event.prCut, Event.prClose] := by
  have hpad : String.mk (List.replicate 11 ' ') = "           " := by decide
  rw [hpad]
  exact ⟨rfl, rfl⟩

/-- Witness for `c7_print_sequence` at darkness 0x2A. -/
theorem c7_witness :
    (0x2A : Nat) < 256 ∧
    printImageTrace 0x2A dateD =
      [Event.prOpen, Event.prRaw [29, 66, 0x2A], Event.prSleepMs 100,
        Event.prRaw [29, 40, 1], Event.prImage, Event.prText "\n",
        Event.prText (String.mk (List.replicate 11 ' ') ++ formatDMY dateD ++ "\n"),
        Event.prFeed 1, Event.prCut, Event.prClose] :=
  ⟨by decide, (c7_print_sequence 0x2A (by decide) dateD).1⟩

/-- The adaptive palette never exceeds the requested number of entries
and holds no duplicates: either the distinct values already fit, or they
are merged into at most `n` buckets. -/
theorem adaptivePalette_le (vals : List Nat) (n : Nat) :
    (adaptivePalette vals n).length ≤ n ∧ (adaptivePalette vals n).Nodup := by
  unfold adaptivePalette
  split
  · next h => exact ⟨h, List.nodup_dedup _⟩
  · next h =>
    refine ⟨?_, List.nodup_dedup _⟩
    calc (((List.range n).map (bucketMean vals.dedup n)).dedup).length
        ≤ ((List.range n).map (bucketMean vals.dedup n)).length :=
          (List.dedup_sublist _).length_le
      _ = n := by simp

/-- Claim C8 (confirmed): for every `numColors` in `(0, 256]`, the final
quantization step of `convert` returns a palette-mode image whose
adaptive palette holds at most `numColors` entries, all distinct. -/
theorem c8_palette_at_most_numColors (wd n : Nat) (img : Img)
    (_h0 : 0 < n) (_h256 : n ≤ 256) :
    (ImageProcessor.convert wd n img).palette.length ≤ n ∧
    (ImageProcessor.convert wd n img).palette.Nodup :=
  adaptivePalette_le _ n

/-- Witness for `c8_palette_at_most_numColors` at the default 254
colors. -/
theorem c8_witness :
    (0 : Nat) < 254 ∧ (254 : Nat) ≤ 256 ∧
    (ImageProcessor.convert 384 254 imgAB).palette.length ≤ 254 :=
  ⟨by decide, by decide,
    (c8_palette_at_most_numColors 384 254 imgAB (by decide) (by decide)).1⟩

/-- Claim C10 (confirmed): `load_config` substitutes the documented
default only when a numeric key is absent from the environment; any of
the five numeric keys set to a string that Python `int()` rejects — such
as the hex spelling `0x2A` — makes `load_config` raise a `ValueError`
instead of substituting the default. -/
theorem c10_int_env_strict (k s : String)
    (hk : k = "BUTTON_PIN" ∨ k = "LED_PIN" ∨ k = "IMAGE_WIDTH" ∨
      k = "NUM_COLORS" ∨ k = "DARKNESS_LEVEL")
    (hs : pyInt? s = none) :
    load_config (fun _ => none) =
      Except.ok ⟨17, 12, "/dev/usb/lp0", 384, 254, 42⟩ ∧
    load_config (fun q => if q = k then some s else none) =
      Except.error ("invalid literal for int() with base 10: " ++ s) := by
  refine ⟨rfl, ?_⟩
  rcases hk with rfl | rfl | rfl | rfl | rfl <;>
    simp [load_config, getIntEnv, hs]

/-- Witness for `c10_int_env_strict` at `BUTTON_PIN=0x2A`. -/
theorem c10_witness :
    pyInt? "0x2A" = none ∧
    load_config (fun q => if q = "BUTTON_PIN" then some "0x2A" else none) =
      Except.error ("invalid literal for int() with base 10: " ++ "0x2A") :=
  ⟨rfl, (c10_int_env_strict "BUTTON_PIN" "0x2A" (Or.inl rfl) rfl).2⟩

end PiCam
